import Mathlib

/-!
Shallow embedding of `src/scraper.py` (wurk.fun job-listing monitor).

Python strings are modelled as Lean `String` (a packed `List Char`), Python
lists as `List`, Python sets as `Finset`, JSON documents as the inductive
`Json` below, and the durable `previous_jobs.json` store as `FileState`.
Python functions that catch every exception and return a default are total
Lean functions whose exception arms return that default.
-/

namespace Scraper

/-- A JSON value, the possible result of `json.load`. -/
inductive Json where
  | null : Json
  | bool (b : Bool) : Json
  | num (n : Int) : Json
  | str (s : String) : Json
  | arr (elems : List Json) : Json
  | obj (fields : List (String × Json)) : Json

mutual

/-- Decidable equality of JSON values. -/
def Json.decEq : (a b : Json) → Decidable (a = b)
  | .null, .null => isTrue rfl
  | .bool a, .bool b =>
    if h : a = b then isTrue (by rw [h]) else isFalse (fun hc => h (by cases hc; rfl))
  | .num a, .num b =>
    if h : a = b then isTrue (by rw [h]) else isFalse (fun hc => h (by cases hc; rfl))
  | .str a, .str b =>
    if h : a = b then isTrue (by rw [h]) else isFalse (fun hc => h (by cases hc; rfl))
  | .arr xs, .arr ys =>
    match Json.decEqList xs ys with
    | isTrue h => isTrue (by rw [h])
    | isFalse h => isFalse (fun hc => h (by cases hc; rfl))
  | .obj xs, .obj ys =>
    match Json.decEqFields xs ys with
    | isTrue h => isTrue (by rw [h])
    | isFalse h => isFalse (fun hc => h (by cases hc; rfl))
  | .null, .bool _ => isFalse (fun h => Json.noConfusion h)
  | .null, .num _ => isFalse (fun h => Json.noConfusion h)
  | .null, .str _ => isFalse (fun h => Json.noConfusion h)
  | .null, .arr _ => isFalse (fun h => Json.noConfusion h)
  | .null, .obj _ => isFalse (fun h => Json.noConfusion h)
  | .bool _, .null => isFalse (fun h => Json.noConfusion h)
  | .bool _, .num _ => isFalse (fun h => Json.noConfusion h)
  | .bool _, .str _ => isFalse (fun h => Json.noConfusion h)
  | .bool _, .arr _ => isFalse (fun h => Json.noConfusion h)
  | .bool _, .obj _ => isFalse (fun h => Json.noConfusion h)
  | .num _, .null => isFalse (fun h => Json.noConfusion h)
  | .num _, .bool _ => isFalse (fun h => Json.noConfusion h)
  | .num _, .str _ => isFalse (fun h => Json.noConfusion h)
  | .num _, .arr _ => isFalse (fun h => Json.noConfusion h)
  | .num _, .obj _ => isFalse (fun h => Json.noConfusion h)
  | .str _, .null => isFalse (fun h => Json.noConfusion h)
  | .str _, .bool _ => isFalse (fun h => Json.noConfusion h)
  | .str _, .num _ => isFalse (fun h => Json.noConfusion h)
  | .str _, .arr _ => isFalse (fun h => Json.noConfusion h)
  | .str _, .obj _ => isFalse (fun h => Json.noConfusion h)
  | .arr _, .null => isFalse (fun h => Json.noConfusion h)
  | .arr _, .bool _ => isFalse (fun h => Json.noConfusion h)
  | .arr _, .num _ => isFalse (fun h => Json.noConfusion h)
  | .arr _, .str _ => isFalse (fun h => Json.noConfusion h)
  | .arr _, .obj _ => isFalse (fun h => Json.noConfusion h)
  | .obj _, .null => isFalse (fun h => Json.noConfusion h)
  | .obj _, .bool _ => isFalse (fun h => Json.noConfusion h)
  | .obj _, .num _ => isFalse (fun h => Json.noConfusion h)
  | .obj _, .str _ => isFalse (fun h => Json.noConfusion h)
  | .obj _, .arr _ => isFalse (fun h => Json.noConfusion h)

/-- Decidable equality of JSON arrays. -/
def Json.decEqList : (xs ys : List Json) → Decidable (xs = ys)
  | [], [] => isTrue rfl
  | [], _ :: _ => isFalse (fun h => List.noConfusion h)
  | _ :: _, [] => isFalse (fun h => List.noConfusion h)
  | x :: xs, y :: ys =>
    match Json.decEq x y, Json.decEqList xs ys with
    | isTrue h1, isTrue h2 => isTrue (by rw [h1, h2])
    | isFalse h1, _ => isFalse (fun hc => h1 (by cases hc; rfl))
    | _, isFalse h2 => isFalse (fun hc => h2 (by cases hc; rfl))

/-- Decidable equality of JSON object field lists. -/
def Json.decEqFields : (xs ys : List (String × Json)) → Decidable (xs = ys)
  | [], [] => isTrue rfl
  | [], _ :: _ => isFalse (fun h => List.noConfusion h)
  | _ :: _, [] => isFalse (fun h => List.noConfusion h)
  | (k1, v1) :: xs, (k2, v2) :: ys =>
    if hk : k1 = k2 then
      match Json.decEq v1 v2, Json.decEqFields xs ys with
      | isTrue h1, isTrue h2 => isTrue (by rw [hk, h1, h2])
      | isFalse h1, _ => isFalse (fun hc => h1 (by cases hc; rfl))
      | _, isFalse h2 => isFalse (fun hc => h2 (by cases hc; rfl))
    else
      isFalse (fun hc => hk (by cases hc; rfl))

end

instance : DecidableEq Json := Json.decEq

/-- State of the durable store file `previous_jobs.json`:
absent, present but not valid JSON, or present and parsed to a value. -/
inductive FileState where
  | missing : FileState
  | unparseable : FileState
  | parsed (j : Json) : FileState
  deriving DecidableEq

/-- Python `dict.get`: JSON parsing keeps the last of duplicate keys. -/
def dictGet : List (String × Json) → String → Option Json
  | [], _ => none
  | (k, v) :: rest, key =>
    match dictGet rest key with
    | some w => some w
    | none => if k = key then some v else none

/-- Whether a Python value of this JSON shape is hashable
(lists and dicts are not; `set(...)` over them raises `TypeError`). -/
def isHashable : Json → Bool
  | .arr _ => false
  | .obj _ => false
  | _ => true

/-- Python `set(v)` for a JSON-shaped value `v`, as used inside the
`try` of `load_previous_jobs`: over a list it collects the (hashable)
elements, raising `TypeError` (caught by the caller, yielding `∅`) if any
element is unhashable; iterating a string yields its one-character
substrings; iterating a dict yields its keys; other values are not
iterable, raising `TypeError` (caught, yielding `∅`). -/
def pySet : Json → Finset Json
  | .arr xs => if xs.all isHashable then xs.toFinset else ∅
  | .str s => (s.data.map (fun c => Json.str (String.mk [c]))).toFinset
  | .obj fields => (fields.map (fun p => Json.str p.1)).toFinset
  | _ => ∅

/-- `load_previous_jobs` (scraper.py lines 119–129): read the store,
`set(data.get('signatures', []))` on success; any failure path (missing
file, parse error, non-dict document, unhashable members) returns `set()`.
The body is wrapped in `try/except` returning `set()`, so it is total:
every exception arm is an explicit `∅` here. -/
def load_previous_jobs : FileState → Finset Json
  | .missing => ∅
  | .unparseable => ∅
  | .parsed j =>
    match j with
    | .obj fields =>
      match dictGet fields "signatures" with
      | some v => pySet v
      | none => ∅
    | _ => ∅

/-- A job record as built by `scrape_wurk_jobs` (the dict appended at
scraper.py lines 96–101). -/
structure Job where
  creator : String
  time_left : String
  reward : String
  description : String
  deriving DecidableEq

/-- `get_job_signature` (scraper.py lines 115–117):
`f"{job['creator']}|{job['reward']}|{job['description']}"`. -/
def get_job_signature (job : Job) : String :=
  job.creator ++ "|" ++ job.reward ++ "|" ++ job.description

/-- `save_current_jobs` (scraper.py lines 131–139): write
`{'signatures': [get_job_signature(job) for job in jobs_data]}` as the
whole store document. -/
def save_current_jobs (jobs_data : List Job) : FileState :=
  .parsed (.obj [("signatures",
    .arr (jobs_data.map (fun job => .str (get_job_signature job))))])

/-- `find_new_jobs` (scraper.py lines 141–148): collect, in order, the
current jobs whose signature is not in `previous_signatures` (a Python
set of loaded JSON values; a string is a member iff the set holds that
string). -/
def find_new_jobs (current_jobs : List Job) (previous_signatures : Finset Json) :
    List Job :=
  match current_jobs with
  | [] => []
  | job :: rest =>
    if Json.str (get_job_signature job) ∈ previous_signatures then
      find_new_jobs rest previous_signatures
    else
      job :: find_new_jobs rest previous_signatures

/-! ### Python string primitives -/

/-- Python's whitespace test for `str.split()` / `str.strip()`
(ASCII whitespace: space, tab, newline, carriage return, vertical tab,
form feed). -/
def pyIsSpace (c : Char) : Bool :=
  c == ' ' || c == '\t' || c == '\n' || c == '\r' || c == '\x0b' || c == '\x0c'

/-- Helper for `pySplit`: `acc` holds the current word reversed. -/
def pySplitAux : List Char → List Char → List (List Char)
  | [], acc => if acc.isEmpty then [] else [acc.reverse]
  | c :: rest, acc =>
    if pyIsSpace c then
      if acc.isEmpty then pySplitAux rest []
      else acc.reverse :: pySplitAux rest []
    else pySplitAux rest (c :: acc)

/-- Python `str.split()` with no arguments: split on runs of whitespace,
discarding empty words (so leading/trailing whitespace contributes
nothing). -/
def pySplit (l : List Char) : List (List Char) :=
  pySplitAux l []

/-- Python `" ".join(words)`: interleave a single space between words. -/
def joinSpace : List (List Char) → List Char
  | [] => []
  | [w] => w
  | w :: ws => w ++ ' ' :: joinSpace ws

/-- Python `str.strip()`: drop leading and trailing whitespace. -/
def pyStripChars (l : List Char) : List Char :=
  ((l.dropWhile pyIsSpace).reverse.dropWhile pyIsSpace).reverse

/-- Python `str.strip()` on a `String`. -/
def pyStrip (s : String) : String :=
  String.mk (pyStripChars s.data)

/-- `pat` is a prefix of the second list. -/
def startsWith : List Char → List Char → Bool
  | [], _ => true
  | _ :: _, [] => false
  | p :: ps, c :: cs => p == c && startsWith ps cs

theorem startsWith_length {p l : List Char} (h : startsWith p l = true) :
    p.length ≤ l.length := by
  induction p generalizing l with
  | nil => simp
  | cons p ps ih =>
    cases l with
    | nil => simp [startsWith] at h
    | cons c cs =>
      simp only [startsWith, Bool.and_eq_true] at h
      simpa using ih h.2

/-- Python `s.replace(pat, repl)` on character lists: replace every
non-overlapping occurrence of `pat`, scanning left to right. (Python's
behaviour for an empty `pat` differs; the program only replaces the
non-empty patterns `"<b>"` and `"</b>"`.) -/
def pyReplaceChars (pat repl : List Char) : List Char → List Char
  | [] => []
  | c :: rest =>
    if h : pat ≠ [] ∧ startsWith pat (c :: rest) then
      repl ++ pyReplaceChars pat repl ((c :: rest).drop pat.length)
    else
      c :: pyReplaceChars pat repl rest
termination_by l => l.length
decreasing_by
  · have hle : pat.length ≤ (c :: rest).length := startsWith_length h.2
    have hpos : 0 < pat.length := List.length_pos.mpr h.1
    simp only [List.length_drop]
    omega
  · simp

/-- Python `s.replace(pat, repl)` on `String`s. -/
def pyReplace (s pat repl : String) : String :=
  String.mk (pyReplaceChars pat.data repl.data s.data)

/-! ### Extractor (`scrape_wurk_jobs`, scraper.py lines 40–105) -/

/-- `" ".join(description.split())` (scraper.py line 92): collapse every
internal run of whitespace to a single space and drop leading/trailing
whitespace. -/
def normalize_description (s : String) : String :=
  String.mk (joinSpace (pySplit s.data))

/-- Description clean-up (scraper.py lines 92–94): whitespace
normalization, then `description[:197] + "..."` when the result exceeds
200 characters. -/
def clean_description (s : String) : String :=
  let description := normalize_description s
  if 200 < description.length then
    String.mk (description.data.take 197) ++ "..."
  else
    description

/-- The `.reward-primary` element with its three queried sub-elements:
`some t` is an element whose `inner_text()` is `t`, `none` a missing
element. -/
structure PrimaryElem where
  usd_symbol : Option String
  usd_value : Option String
  usd_label : Option String
  deriving DecidableEq

/-- The `.reward-secondary` element with its two queried sub-elements. -/
structure SecondaryElem where
  sol_value : Option String
  sol_label : Option String
  deriving DecidableEq

/-- A job card as seen through the selectors the extractor queries:
each field is the `inner_text()` of the matching sub-element, or `none`
when `query_selector` finds no match. -/
structure Card where
  creator_name : Option String
  stat_timing : Option String
  reward_primary : Option PrimaryElem
  reward_secondary : Option SecondaryElem
  description_text : Option String
  deriving DecidableEq

/-- Reward composition (scraper.py lines 56–85): start from `""`; if the
primary element and all three of its sub-parts exist, set
`f"{usd_s}{usd_v} {usd_l}"`; if the secondary element and both its
sub-parts exist, append `f" ({sol_v} {sol_l})"` to a non-empty reward or
set `f"{sol_v} {sol_l}"` otherwise; finally replace an empty reward by
`"N/A"`. -/
def reward_of_card (card : Card) : String :=
  let reward_text := ""
  let reward_text :=
    match card.reward_primary with
    | some p =>
      match p.usd_symbol, p.usd_value, p.usd_label with
      | some usd_s, some usd_v, some usd_l => usd_s ++ usd_v ++ " " ++ usd_l
      | _, _, _ => reward_text
    | none => reward_text
  let reward_text :=
    match card.reward_secondary with
    | some q =>
      match q.sol_value, q.sol_label with
      | some sol_v, some sol_l =>
        if reward_text ≠ "" then reward_text ++ " (" ++ sol_v ++ " " ++ sol_l ++ ")"
        else sol_v ++ " " ++ sol_l
      | _, _ => reward_text
    | none => reward_text
  if reward_text = "" then "N/A" else reward_text

/-- Per-card extraction (scraper.py lines 42–101): creator text or
`"Unknown"`, stripped timing text or `"N/A"`, composed reward, cleaned
description or `"No description"`; the dict fields apply `.strip()` to
creator, reward and description. -/
def extract_card (card : Card) : Job :=
  let creator_name := card.creator_name.getD "Unknown"
  let time_left :=
    match card.stat_timing with
    | some timing_text => pyStrip timing_text
    | none => "N/A"
  let reward_text := reward_of_card card
  let description := clean_description (card.description_text.getD "No description")
  { creator := pyStrip creator_name
    time_left := time_left
    reward := pyStrip reward_text
    description := pyStrip description }

/-- A card handle as the per-card loop sees it: `ok c` is a card whose
processing succeeds with the queried texts `c`; `err` is a card whose
processing raises somewhere inside the per-card `try` (the `except` at
scraper.py lines 103–105 catches it, logs, and `continue`s). -/
inductive CardH where
  | ok (c : Card) : CardH
  | err : CardH
  deriving DecidableEq

/-- The card loop of `scrape_wurk_jobs` (scraper.py lines 38–108):
append one extracted record per card, in card order; a card that raises
is skipped and the loop continues. -/
def scrape_wurk_jobs : List CardH → List Job
  | [] => []
  | .ok c :: rest => extract_card c :: scrape_wurk_jobs rest
  | .err :: rest => scrape_wurk_jobs rest

/-- The cards whose processing succeeds, in order. -/
def okCards : List CardH → List Card
  | [] => []
  | .ok c :: rest => c :: okCards rest
  | .err :: rest => okCards rest

/-! ### Notifier (the message-sending block, scraper.py lines 149–207)

This block is the body of the Telegram notifier: it sits after the
`return` of `find_new_jobs` and no `def send_telegram_message` line
exists at module scope, so the block is unreachable as written; it is
modelled here as the function the call site `send_telegram_message(
bot_token, chat_id, new_jobs)` (line 238) expects. -/

/-- One `requests.post` JSON body sent to the Telegram `sendMessage`
endpoint: `{chat_id, text, parse_mode}`, with `parse_mode` omitted
(`none`) in the fallback payload. -/
structure TgPayload where
  chat_id : String
  text : String
  parse_mode : Option String
  deriving DecidableEq

/-- `message.replace('<b>', '').replace('</b>', '')` (scraper.py
line 196): strip the rich-text markers from the message body. -/
def strip_formatting (message : String) : String :=
  pyReplace (pyReplace message "<b>" "") "</b>" ""

/-- Delivery logic of the message-sending block (scraper.py lines
174–207). `transport p` is the outcome of `requests.post(url, json=p)`
followed by `raise_for_status()`: `true` for a success response, `false`
for a non-success response or transport error (the raised
`RequestException`). Returns the overall success flag and the list of
payloads posted, in order. Both failure paths are caught (`except` at
lines 188 and 205), so the function is total: it never raises to its
caller. -/
def send_telegram_message (chat_id message : String)
    (transport : TgPayload → Bool) : Bool × List TgPayload :=
  let payload : TgPayload := { chat_id := chat_id, text := message, parse_mode := some "HTML" }
  if transport payload then
    (true, [payload])
  else
    let plain_payload : TgPayload :=
      { chat_id := chat_id, text := strip_formatting message, parse_mode := none }
    if transport plain_payload then
      (true, [payload, plain_payload])
    else
      (false, [payload, plain_payload])

/-! ### Orchestrator (`main`, scraper.py lines 209–243) -/

/-- Python truthiness of `os.getenv`'s result: `None` and `""` are
falsy. -/
def truthy : Option String → Bool
  | none => false
  | some s => s ≠ ""

/-- The two environment credentials read at the top of `main`. -/
structure Config where
  bot_token : Option String
  chat_id : Option String

/-- Outcome of one run of `main`: the constructor records how the run
ended and the state of the store file when the process exits. -/
inductive RunResult where
  | configAbort (store : FileState) : RunResult
  | completed (store : FileState) : RunResult
  | nameErrorAbort (store : FileState) : RunResult
  deriving DecidableEq

/-- `main` (scraper.py lines 209–243) acting on the store file, given
the card handles the page yields. Steps: credential check (early
`return` leaving the store untouched); `load_previous_jobs`;
`scrape_wurk_jobs`; `find_new_jobs`; then, when `new_jobs` is non-empty,
the call `send_telegram_message(bot_token, chat_id, new_jobs)`
(line 238) raises `NameError` — no definition of that name exists at
module scope (the notifier body sits unreachably after the `return` of
`find_new_jobs`) — the exception is uncaught, so the run aborts there
and `save_current_jobs` on line 243 never executes; when `new_jobs` is
empty, the branch is skipped and `save_current_jobs(current_jobs)`
overwrites the store. -/
def main_run (cfg : Config) (store : FileState) (cards : List CardH) : RunResult :=
  if ¬ truthy cfg.bot_token ∨ ¬ truthy cfg.chat_id then
    .configAbort store
  else
    let previous_signatures := load_previous_jobs store
    let current_jobs := scrape_wurk_jobs cards
    let new_jobs := find_new_jobs current_jobs previous_signatures
    if new_jobs.isEmpty then
      .completed (save_current_jobs current_jobs)
    else
      .nameErrorAbort store

/-! ### Helper lemmas -/

theorem toFinset_map_list {α β : Type} [DecidableEq α] [DecidableEq β]
    (l : List α) (f : α → β) : (l.map f).toFinset = l.toFinset.image f := by
  induction l with
  | nil => simp
  | cons a l ih => simp [ih]

theorem all_isHashable_map_str {α : Type} (l : List α) (f : α → String) :
    (l.map (fun a => Json.str (f a))).all isHashable = true := by
  induction l with
  | nil => rfl
  | cons a l ih =>
    rw [List.map_cons, List.all_cons, ih]
    rfl

/-- A job returned by `find_new_jobs` always has its signature outside the
previous-signature set. -/
theorem sig_not_mem_of_mem_find_new_jobs {job : Job} {current : List Job}
    {previous : Finset Json} (h : job ∈ find_new_jobs current previous) :
    Json.str (get_job_signature job) ∉ previous := by
  induction current with
  | nil => simp [find_new_jobs] at h
  | cons j rest ih =>
    rw [find_new_jobs] at h
    by_cases hj : Json.str (get_job_signature j) ∈ previous
    · rw [if_pos hj] at h
      exact ih h
    · rw [if_neg hj] at h
      rcases List.mem_cons.mp h with rfl | h'
      · exact hj
      · exact ih h'

/-- `'|'` does not occur in the string `s`. -/
def noBar (s : String) : Prop := '|' ∉ s.data

instance (s : String) : Decidable (noBar s) := by
  unfold noBar
  infer_instance

/-- Splitting at the first delimiter is unambiguous when neither leading
part contains the delimiter. -/
theorem bar_split_unique {a1 a2 rest1 rest2 : List Char}
    (h1 : '|' ∉ a1) (h2 : '|' ∉ a2)
    (h : a1 ++ '|' :: rest1 = a2 ++ '|' :: rest2) :
    a1 = a2 ∧ rest1 = rest2 := by
  induction a1 generalizing a2 with
  | nil =>
    cases a2 with
    | nil => simpa using h
    | cons c cs =>
      simp only [List.nil_append, List.cons_append, List.cons.injEq] at h
      exact absurd (h.1 ▸ List.mem_cons_self c cs) h2
  | cons c cs ih =>
    cases a2 with
    | nil =>
      simp only [List.cons_append, List.nil_append, List.cons.injEq] at h
      exact absurd (h.1 ▸ List.mem_cons_self c cs) h1
    | cons d ds =>
      simp only [List.cons_append, List.cons.injEq] at h
      have h1' : '|' ∉ cs := fun hm => h1 (List.mem_cons_of_mem c hm)
      have h2' : '|' ∉ ds := fun hm => h2 (List.mem_cons_of_mem d hm)
      obtain ⟨e1, e2⟩ := ih h1' h2' h.2
      exact ⟨by rw [h.1, e1], e2⟩

/-- The character data of a signature, with the two delimiters exposed. -/
theorem get_job_signature_data (job : Job) :
    (get_job_signature job).data =
      job.creator.data ++ '|' :: (job.reward.data ++ '|' :: job.description.data) := by
  simp [get_job_signature, String.data_append]

/-! ### Claim theorems -/

/-- C2: `find_new_jobs(current, previous)` is exactly the subsequence of
`current` whose signatures are not members of the string set `previous`,
i.e. the order-preserving filter of `current` by that membership test. -/
theorem find_new_jobs_eq_filter (current : List Job) (previous : Finset String) :
    find_new_jobs current (previous.image Json.str) =
      current.filter (fun job => decide (get_job_signature job ∉ previous)) := by
  induction current with
  | nil => rfl
  | cons job rest ih =>
    rw [find_new_jobs, List.filter]
    by_cases h : get_job_signature job ∈ previous
    · rw [if_pos (Finset.mem_image_of_mem Json.str h), ih]
      simp [h]
    · have hni : Json.str (get_job_signature job) ∉ previous.image Json.str := by
        intro hmem
        obtain ⟨a, ha, heq⟩ := Finset.mem_image.mp hmem
        cases heq
        exact h ha
      rw [if_neg hni, ih]
      simp [h]

/-- C3: the signature depends only on creator, reward and description —
two records agreeing on those three fields have equal signatures whatever
their `time_left`; consequently, when the prior run recorded the
signature, the otherwise-identical record with a different `time_left` is
not classified as new. -/
theorem signature_ignores_time_left (r1 r2 : Job)
    (hc : r1.creator = r2.creator) (hr : r1.reward = r2.reward)
    (hd : r1.description = r2.description) :
    get_job_signature r1 = get_job_signature r2 ∧
    ∀ (current : List Job) (previous : Finset Json),
      Json.str (get_job_signature r1) ∈ previous →
        r2 ∉ find_new_jobs current previous := by
  have hsig : get_job_signature r1 = get_job_signature r2 := by
    unfold get_job_signature
    rw [hc, hr, hd]
  refine ⟨hsig, ?_⟩
  intro current previous hmem hin
  exact sig_not_mem_of_mem_find_new_jobs hin (hsig ▸ hmem)

/-- Witness for C3: record A from a prior run and the same record with a
different countdown have equal signatures, and A is not reported new. -/
theorem signature_ignores_time_left_witness :
    get_job_signature ⟨"alice", "22h 35m left", "$50 USDC", "Build a bot"⟩ =
      get_job_signature ⟨"alice", "3h 10m left", "$50 USDC", "Build a bot"⟩ ∧
    (⟨"alice", "3h 10m left", "$50 USDC", "Build a bot"⟩ : Job) ∉
      find_new_jobs [⟨"alice", "3h 10m left", "$50 USDC", "Build a bot"⟩]
        {Json.str (get_job_signature ⟨"alice", "22h 35m left", "$50 USDC", "Build a bot"⟩)} :=
  ⟨(signature_ignores_time_left _ _ rfl rfl rfl).1,
   (signature_ignores_time_left _ _ rfl rfl rfl).2 _ _ (Finset.mem_singleton_self _)⟩

/-- C4: on delimiter-free fields the signature is injective — records
differing in creator, reward or description get different signatures. -/
theorem get_job_signature_injective (r1 r2 : Job)
    (h1c : noBar r1.creator) (h1r : noBar r1.reward) (h1d : noBar r1.description)
    (h2c : noBar r2.creator) (h2r : noBar r2.reward) (h2d : noBar r2.description)
    (hdiff : r1.creator ≠ r2.creator ∨ r1.reward ≠ r2.reward ∨
      r1.description ≠ r2.description) :
    get_job_signature r1 ≠ get_job_signature r2 := by
  intro heq
  have hdata := congrArg String.data heq
  rw [get_job_signature_data, get_job_signature_data] at hdata
  obtain ⟨e1, erest⟩ := bar_split_unique h1c h2c hdata
  obtain ⟨e2, e3⟩ := bar_split_unique h1r h2r erest
  rcases hdiff with hne | hne | hne
  · exact hne (String.ext e1)
  · exact hne (String.ext e2)
  · exact hne (String.ext e3)

/-- Witness for C4: two delimiter-free records differing in creator have
different signatures. -/
theorem get_job_signature_injective_witness :
    noBar "alice" ∧ noBar "bob" ∧ noBar "$50 USDC" ∧ noBar "Build a bot" ∧
    get_job_signature ⟨"alice", "1h", "$50 USDC", "Build a bot"⟩ ≠
      get_job_signature ⟨"bob", "1h", "$50 USDC", "Build a bot"⟩ :=
  ⟨by decide, by decide, by decide, by decide,
   get_job_signature_injective _ _ (by decide) (by decide) (by decide)
     (by decide) (by decide) (by decide) (Or.inl (by decide))⟩

/-- C5: saving a run's jobs and loading the store back yields exactly the
set of that run's signatures (as the Python string values in the set). -/
theorem save_then_load_round_trip (jobs_data : List Job) :
    load_previous_jobs (save_current_jobs jobs_data) =
      (jobs_data.map get_job_signature).toFinset.image Json.str := by
  rw [save_current_jobs, load_previous_jobs]
  have hget : dictGet [("signatures",
      Json.arr (jobs_data.map (fun job => Json.str (get_job_signature job))))]
      "signatures" =
      some (Json.arr (jobs_data.map (fun job => Json.str (get_job_signature job)))) := rfl
  rw [hget]
  simp only [pySet]
  rw [if_pos (all_isHashable_map_str jobs_data get_job_signature)]
  have : jobs_data.map (fun job => Json.str (get_job_signature job)) =
      (jobs_data.map get_job_signature).map Json.str := by
    rw [List.map_map]
    rfl
  rw [this, toFinset_map_list]

/-- C8: the loader returns the empty set when the store file is absent or
its content fails to parse (and, being a total function, it never raises:
every exception path inside its `try` is an explicit `∅` arm). -/
theorem load_previous_jobs_default (st : FileState)
    (h : st = .missing ∨ st = .unparseable) :
    load_previous_jobs st = ∅ := by
  rcases h with rfl | rfl <;> rfl

/-- Witness for C8: loading an absent store yields the empty set. -/
theorem load_previous_jobs_default_witness :
    load_previous_jobs .missing = ∅ :=
  load_previous_jobs_default .missing (Or.inl rfl)

/-- C9: the card loop yields one record per successfully processed card,
in card order, and a card whose processing raises is skipped while the
loop continues over all remaining cards. -/
theorem scrape_wurk_jobs_skips_failures :
    (∀ cards : List CardH,
      scrape_wurk_jobs cards = (okCards cards).map extract_card) ∧
    (∀ pre post : List CardH,
      scrape_wurk_jobs (pre ++ CardH.err :: post) = scrape_wurk_jobs (pre ++ post)) := by
  have h1 : ∀ cards : List CardH,
      scrape_wurk_jobs cards = (okCards cards).map extract_card := by
    intro cards
    induction cards with
    | nil => rfl
    | cons c rest ih => cases c <;> simp [scrape_wurk_jobs, okCards, ih]
  refine ⟨h1, ?_⟩
  intro pre post
  induction pre with
  | nil => rfl
  | cons c pre ih => cases c <;> simp [scrape_wurk_jobs, ih]

/-- C6: after whitespace normalization, a description longer than 200
characters is cut to its first 197 characters plus the three-character
ellipsis marker — 200 characters in total — and a description of at most
200 characters is left unchanged. -/
theorem clean_description_cap (s : String) :
    (200 < (normalize_description s).length →
      clean_description s =
        String.mk ((normalize_description s).data.take 197) ++ "..." ∧
      (clean_description s).length = 200) ∧
    ((normalize_description s).length ≤ 200 →
      clean_description s = normalize_description s) := by
  constructor
  · intro h
    have heq : clean_description s =
        String.mk ((normalize_description s).data.take 197) ++ "..." := by
      simp only [clean_description]
      rw [if_pos h]
    refine ⟨heq, ?_⟩
    rw [heq, String.length_append]
    have hmk : (String.mk ((normalize_description s).data.take 197)).length =
        ((normalize_description s).data.take 197).length := rfl
    have hlen : (normalize_description s).length =
        (normalize_description s).data.length := rfl
    have htake : ((normalize_description s).data.take 197).length = 197 := by
      rw [List.length_take]
      omega
    have hdots : ("..." : String).length = 3 := rfl
    rw [hmk, htake, hdots]
  · intro h
    simp only [clean_description]
    rw [if_neg (Nat.not_lt.mpr h)]

set_option maxRecDepth 8192 in
/-- Witness for C6: a 250-character description is truncated to its first
197 characters plus the ellipsis, 200 characters in total. -/
theorem clean_description_cap_witness :
    200 < (normalize_description (String.mk (List.replicate 250 'a'))).length ∧
    clean_description (String.mk (List.replicate 250 'a')) =
      String.mk ((normalize_description (String.mk (List.replicate 250 'a'))).data.take 197)
        ++ "..." ∧
    (clean_description (String.mk (List.replicate 250 'a'))).length = 200 :=
  ⟨by decide, (clean_description_cap _).1 (by decide)⟩

/-- Whether the primary reward element and all three of its sub-parts
(symbol, value, label) resolved. -/
def primary_resolves (card : Card) : Bool :=
  match card.reward_primary with
  | some p => p.usd_symbol.isSome && p.usd_value.isSome && p.usd_label.isSome
  | none => false

/-- Whether the secondary reward element and both its sub-parts (value,
label) resolved. -/
def secondary_resolves (card : Card) : Bool :=
  match card.reward_secondary with
  | some q => q.sol_value.isSome && q.sol_label.isSome
  | none => false

/-- When neither reward composition contributes, the composed reward text
falls back to `"N/A"`. -/
theorem reward_of_card_na (card : Card) (hp : primary_resolves card = false)
    (hs : secondary_resolves card = false) : reward_of_card card = "N/A" := by
  obtain ⟨cn, st, rp, rs, dt⟩ := card
  rcases rp with _ | ⟨us, uv, ul⟩
  · rcases rs with _ | ⟨sv, sl⟩
    · rfl
    · cases sv <;> cases sl <;>
        simp_all [reward_of_card, secondary_resolves]
  · rcases rs with _ | ⟨sv, sl⟩
    · cases us <;> cases uv <;> cases ul <;>
        simp_all [reward_of_card, primary_resolves]
    · cases us <;> cases uv <;> cases ul <;> cases sv <;> cases sl <;>
        simp_all [reward_of_card, primary_resolves, secondary_resolves]

/-- C7: a card with missing sub-elements still yields a record, with the
documented defaults: creator `"Unknown"`, description
`"No description"`, and reward `"N/A"` when neither the primary nor the
secondary sub-parts all resolve. (`extract_card` is total: no such card
aborts extraction.) -/
theorem extract_card_defaults (card : Card) :
    (card.creator_name = none → (extract_card card).creator = "Unknown") ∧
    (card.description_text = none →
      (extract_card card).description = "No description") ∧
    (primary_resolves card = false → secondary_resolves card = false →
      (extract_card card).reward = "N/A") := by
  refine ⟨?_, ?_, ?_⟩
  · intro h
    simp only [extract_card, h, Option.getD_none]
    decide
  · intro h
    simp only [extract_card, h, Option.getD_none]
    decide
  · intro hp hs
    simp only [extract_card]
    rw [reward_of_card_na card hp hs]
    decide

/-- Witness for C7: the card with every sub-element absent yields the
three documented defaults. -/
theorem extract_card_defaults_witness :
    (extract_card ⟨none, none, none, none, none⟩).creator = "Unknown" ∧
    (extract_card ⟨none, none, none, none, none⟩).description = "No description" ∧
    (extract_card ⟨none, none, none, none, none⟩).reward = "N/A" :=
  ⟨(extract_card_defaults _).1 rfl, (extract_card_defaults _).2.1 rfl,
   (extract_card_defaults _).2.2 rfl rfl⟩

/-- A concrete card whose extraction succeeds, for the failing run of the
persistence claim. -/
def sampleCard : Card :=
  { creator_name := some "alice"
    stat_timing := some "22h 35m left"
    reward_primary := none
    reward_secondary := none
    description_text := some "Build a bot" }

/-- C1 (failing on the code): with credentials set, an absent store, and
one successfully extracted card, the record is new, so `main` reaches the
call `send_telegram_message(bot_token, chat_id, new_jobs)` — a name with
no module-scope definition (its body sits after the `return` of
`find_new_jobs`) — raises `NameError`, and aborts before
`save_current_jobs`: the store still holds its old (absent) content and
the extracted record's signature is not in the persisted set. -/
theorem main_run_crash_skips_save :
    main_run ⟨some "token", some "chat"⟩ FileState.missing [CardH.ok sampleCard] =
      RunResult.nameErrorAbort FileState.missing ∧
    extract_card sampleCard ∈ scrape_wurk_jobs [CardH.ok sampleCard] ∧
    Json.str (get_job_signature (extract_card sampleCard)) ∉
      load_previous_jobs FileState.missing := by
  refine ⟨?_, ?_, ?_⟩
  · rfl
  · exact List.mem_singleton_self _
  · exact Finset.not_mem_empty _

/-- C10: when the first delivery of a composed message fails, exactly one
fallback attempt follows, with the rich-text markers stripped from the
body and `parse_mode` omitted; when the fallback fails too, the notifier
reports overall failure (`false`) — and, being total, never raises. -/
theorem send_telegram_message_fallback (chat_id message : String)
    (transport : TgPayload → Bool)
    (hfail : transport ⟨chat_id, message, some "HTML"⟩ = false) :
    (send_telegram_message chat_id message transport).2 =
      [⟨chat_id, message, some "HTML"⟩,
       ⟨chat_id, strip_formatting message, none⟩] ∧
    (transport ⟨chat_id, strip_formatting message, none⟩ = false →
      (send_telegram_message chat_id message transport).1 = false) := by
  simp only [send_telegram_message]
  rw [hfail]
  simp only [Bool.false_eq_true, if_false]
  by_cases h2 : transport ⟨chat_id, strip_formatting message, none⟩ = true
  · simp [h2]
  · simp [h2]

/-- Witness for C10: with a transport that always fails, the notifier
posts exactly the formatted payload then the stripped, `parse_mode`-free
payload, and returns failure. -/
theorem send_telegram_message_fallback_witness :
    ((fun _ : TgPayload => false) ⟨"chat", "<b>hi</b>", some "HTML"⟩ = false) ∧
    (send_telegram_message "chat" "<b>hi</b>" (fun _ => false)).2 =
      [⟨"chat", "<b>hi</b>", some "HTML"⟩,
       ⟨"chat", strip_formatting "<b>hi</b>", none⟩] ∧
    (send_telegram_message "chat" "<b>hi</b>" (fun _ => false)).1 = false :=
  ⟨rfl, (send_telegram_message_fallback _ _ _ rfl).1,
   (send_telegram_message_fallback _ _ _ rfl).2 rfl⟩

end Scraper
